import Mathlib

/-!
Shallow embedding of the Kafka message-broker adapter
(src/py-utils/src/utils/message_bus/message_broker_collection.py,
class KafkaMessageBroker) and proofs about its specification.

Modelling decisions, stated once:
* The Python error constants are an inductive type.  The constants from
  the external cortx.utils.errors module (ERR_OP_FAILED etc.) and the
  errno constants (EINVAL, ENOENT, ENOKEY, ETIMEDOUT, E2BIG, EINTR) are
  distinct named values in the Python source, hence distinct
  constructors here.
* A raised MessageBusError is the value PyErr.mb kind; a raw Python
  exception that is not part of the adapter's taxonomy (a KeyError from
  a dict lookup, an AttributeError from reading a never-assigned
  attribute) is PyErr.keyError / PyErr.attributeError.
* The value stored in the client registry for one client id is a
  PyHandle: pyLive for a constructed broker client object, pyEmpty for
  the empty dict {} the registry may hold, pyNone for a stored None.
* Broker behaviour (task results, metadata contents, poll outcomes,
  fetched configs) is an explicit environment argument of each
  operation; the adapter's code is translated statement by statement.
-/

namespace KafkaMessageBroker

/-- Error kinds carried by MessageBusError in the adapter. -/
inductive ErrKind where
  | einval | enoent | enokey | etimedout | e2big | eintr
  | opFailed | serviceNotInit | serviceUnavailable | invalidClientType
deriving DecidableEq, Repr

/-- Outcome of a call that can raise: either a MessageBusError of some
kind, or a raw Python error outside the adapter's taxonomy. -/
inductive PyErr where
  | mb (kind : ErrKind)
  | keyError
  | attributeError
deriving DecidableEq, Repr

/-- A value stored in the client registry dictionaries. -/
inductive PyHandle where
  | pyNone | pyEmpty | pyLive
deriving DecidableEq, Repr

/-- Mutable state of a KafkaMessageBroker object: the three registry
dictionaries self._clients, plus the two adapter-level attributes
self._resource (topic name of the ConfigResource set at producer
initialization) and self._saved_retention. -/
structure AdapterState where
  admins : List (String × PyHandle)
  producers : List (String × PyHandle)
  consumers : List (String × PyHandle)
  resource : Option String
  savedRetention : Option Int
deriving DecidableEq, Repr

def emptyState : AdapterState := ⟨[], [], [], none, none⟩

/-- _default_msg_retention_period (milliseconds). -/
def defaultMsgRetentionPeriod : Int := 604800000

/-- _min_msg_retention_period (milliseconds). -/
def minMsgRetentionPeriod : Int := 1

/-- _max_config_retry_count. -/
def maxConfigRetryCount : Nat := 3

/-- _max_list_message_type_count. -/
def maxListMessageTypeCount : Nat := 15

/-- Lines 128-134 of init_client: the saved retention is the fetched
retention.ms value, replaced by the default when it equals the minimal
1 ms value. -/
def computeSavedRetention (fetched : Int) : Int :=
  if fetched = minMsgRetentionPeriod then defaultMsgRetentionPeriod else fetched

/-- Client kinds: the keys of self._clients. -/
inductive ClientType where
  | admin | producer | consumer
deriving DecidableEq, Repr

/-- The client_conf keyword dictionary of init_client, with the fields
the code reads: client_id, message_type (producer), message_types
(consumer), and the set of keys present (for the consumer
required-entry check). -/
structure ClientConf where
  client_id : String
  message_type : String
  message_types : List String
  confKeys : List String
deriving DecidableEq, Repr

/-- Broker-side environment of one init_client call: the topics
reported by client.list_topics(), whether describe_configs reported a
retention.ms entry, and the fetched retention value. -/
structure InitEnv where
  metaTopics : List String
  retPresent : Bool
  fetched : Int
deriving DecidableEq, Repr

def clientsOf (st : AdapterState) : ClientType → List (String × PyHandle)
  | .admin => st.admins
  | .producer => st.producers
  | .consumer => st.consumers

/-- Python dict assignment d[k] = v on an association list. -/
def insertAL (m : List (String × PyHandle)) (k : String) (v : PyHandle) :
    List (String × PyHandle) :=
  (k, v) :: m.filter (fun p => p.1 != k)

/-- The entries init_client requires in client_conf for a consumer
(lines 137-144). -/
def requiredConsumerKeys : List String :=
  ["offset", "consumer_group", "message_types", "auto_ack", "client_id"]

/-- init_client lines 100-134, producer branch: provisions the admin
connection, stores the producer handle, binds self._resource to the
producer's message_type, and captures self._saved_retention; a missing
retention.ms config raises ENOKEY. -/
def buildProducer (st : AdapterState) (conf : ClientConf) (env : InitEnv) :
    Except PyErr AdapterState :=
  let st1 := { st with admins := insertAL st.admins conf.client_id .pyLive }
  let st2 := { st1 with
    producers := insertAL st1.producers conf.client_id .pyLive,
    resource := some conf.message_type }
  if env.retPresent then
    .ok { st2 with savedRetention := some (computeSavedRetention env.fetched) }
  else
    .error (.mb .enokey)

/-- init_client lines 136-152, consumer branch: checks the required
conf entries (ENOENT when one is missing) before opening the consumer
connection. -/
def buildConsumer (st : AdapterState) (conf : ClientConf) :
    Except PyErr AdapterState :=
  if requiredConsumerKeys.all (fun k => conf.confKeys.contains k) then
    .ok { st with consumers := insertAL st.consumers conf.client_id .pyLive }
  else
    .error (.mb .enoent)

/-- init_client lines 100-152: building a fresh handle for a kind. -/
def buildNew (st : AdapterState) (ct : ClientType) (conf : ClientConf)
    (env : InitEnv) : Except PyErr AdapterState :=
  match ct with
  | .admin => .ok { st with admins := insertAL st.admins conf.client_id .pyLive }
  | .producer => buildProducer st conf env
  | .consumer => buildConsumer st conf

/-- init_client lines 78-98: an existing non-empty handle is not
recreated; the call checks the requested topics against live metadata
and returns, raising EINVAL ("Unknown Topic or Partition") on a
violation.  A stored None handle fails the list_topics() attribute
lookup. -/
def compatTopics (st : AdapterState) (ct : ClientType) (conf : ClientConf)
    (env : InitEnv) : Except PyErr AdapterState :=
  match ct with
  | .producer =>
    if conf.message_type ∈ env.metaTopics then .ok st
    else .error (.mb .einval)
  | .consumer =>
    if conf.message_types.any (fun t => env.metaTopics.contains t) then .ok st
    else .error (.mb .einval)
  | .admin => .ok st

def compatCheck (st : AdapterState) (ct : ClientType) (conf : ClientConf)
    (env : InitEnv) (h : PyHandle) : Except PyErr AdapterState :=
  match h with
  | .pyNone => .error .attributeError
  | .pyEmpty => compatTopics st ct conf env
  | .pyLive => compatTopics st ct conf env

/-- init_client (lines 66-152).  The invalid-client-type check of
lines 71-75 cannot fire here because ClientType enumerates exactly the
keys of self._clients. -/
def init_client (st : AdapterState) (ct : ClientType) (conf : ClientConf)
    (env : InitEnv) : Except PyErr AdapterState :=
  match (clientsOf st ct).lookup conf.client_id with
  | some h => if h = .pyEmpty then buildNew st ct conf env
              else compatCheck st ct conf env h
  | none => buildNew st ct conf env

/-- Outcome of one run of the bounded alter-config retry loop
(delete lines 360-376 and 381-392): the alter was applied (break), the
loop raised on the third consecutive error, or the loop fell through
its range without breaking. -/
inductive AlterOutcome where
  | applied | raised | fellThrough
deriving DecidableEq, Repr

/-- One alter-config retry loop over the attempt indices of
range(_max_config_retry_count): a non-error result breaks; an error
result raises once the attempt index exceeds 1, otherwise the loop
continues.  errAt i is true when attempt i's task result is not None. -/
def alterRetryRun (errAt : Nat → Bool) : List Nat → AlterOutcome
  | [] => .fellThrough
  | i :: rest =>
    if errAt i then
      if 1 < i then .raised else alterRetryRun errAt rest
    else .applied

def alterRetry (errAt : Nat → Bool) : AlterOutcome :=
  alterRetryRun errAt (List.range maxConfigRetryCount)

/-- Broker-side environment of one delete (purge) call: per-attempt
error flags of the Phase A and Phase B alter_configs task results. -/
structure DeleteEnv where
  phaseAErr : Nat → Bool
  phaseBErr : Nat → Bool

/-- Observable result of a successful delete call: the returned value
(0), the topic the ConfigResource points at (the topic actually
altered), and the topic's retention.ms after the call. -/
structure DeleteOk where
  returnValue : Nat
  target : String
  retention : Int
deriving DecidableEq, Repr

/-- delete (lines 348-395): admin dict lookup (raw KeyError when the
admin id is absent), Phase A flips self._resource's retention.ms to
the minimal value with the bounded retry loop (OperationFailed on the
third consecutive error), a fixed 1 s grace sleep, then Phase B
restores self._saved_retention with the same loop shape, raising
ENOKEY on exhaustion.  Reading self._resource or
self._saved_retention before any producer initialization is a raw
attribute lookup failure.  initRet is the topic's retention before the
call; message_type mt is used only in log and error text. -/
def delete (st : AdapterState) (adminId mt : String) (env : DeleteEnv)
    (initRet : Int) : Except PyErr DeleteOk :=
  match st.admins.lookup adminId with
  | none => .error .keyError
  | some h =>
    match st.resource with
    | none => .error .attributeError
    | some topic =>
      if h = .pyLive then
        match alterRetry env.phaseAErr with
        | .raised => .error (.mb .opFailed)
        | oA =>
          let retA := if oA = .applied then minMsgRetentionPeriod else initRet
          match st.savedRetention with
          | none => .error .attributeError
          | some saved =>
            match alterRetry env.phaseBErr with
            | .raised => .error (.mb .enokey)
            | oB => .ok ⟨0, topic, if oB = .applied then saved else retA⟩
      else .error .attributeError

/-- The sleep-based confirmation loop body shared by
register_message_type (lines 224-237), deregister_message_type
(lines 255-267) and add_concurrency (lines 293-306): iterate over
attempt indices, and when the predicate fails, raise kind k once the
attempt index exceeds maxC, else sleep attempt-index seconds and
retry.  Returns the list of sleep durations performed. -/
def confirmFrom (k : ErrKind) (maxC : Nat) (failsAt : Nat → Bool) :
    List Nat → List Nat → Except ErrKind (List Nat)
  | [], sleeps => .ok sleeps
  | i :: rest, sleeps =>
    if failsAt i then
      if maxC < i then .error k
      else confirmFrom k maxC failsAt rest (sleeps ++ [i])
    else .ok sleeps

/-- The confirmation loop over range(1, maxC + 2): attempts 1..maxC+1,
polling the predicate immediately on attempt 1. -/
def confirmLoop (k : ErrKind) (maxC : Nat) (failsAt : Nat → Bool) :
    Except ErrKind (List Nat) :=
  confirmFrom k maxC failsAt (List.range' 1 (maxC + 1)) []

/-- The per-message-type confirmation of register_message_type /
deregister_message_type: one confirmLoop per topic, errors propagate. -/
def confirmEach (k : ErrKind) (failsAt : String → Nat → Bool) :
    List String → Except ErrKind Unit
  | [] => .ok ()
  | mt :: rest =>
    match confirmLoop k maxListMessageTypeCount (failsAt mt) with
    | .error e => .error e
    | .ok _ => confirmEach k failsAt rest

/-- register_message_type (lines 203-237): admin lookup, create_topics
task results checked by _task_status (OperationFailed on a task
error), then an ETIMEDOUT-bounded confirmation that every topic
appears in metadata.  present mt i is true when topic mt is listed in
metadata at confirmation attempt i. -/
def register_message_type (st : AdapterState) (adminId : String)
    (messageTypes : List String) (taskErr : Bool)
    (present : String → Nat → Bool) : Except PyErr Unit :=
  match st.admins.lookup adminId with
  | none => .error .keyError
  | some h =>
    if h = .pyLive then
      if taskErr then .error (.mb .opFailed)
      else
        match confirmEach .etimedout (fun mt i => ! present mt i) messageTypes with
        | .error e => .error (.mb e)
        | .ok _ => .ok ()
    else .error .attributeError

/-- deregister_message_type (lines 239-267): symmetric, the
confirmation fails while the topic is still present. -/
def deregister_message_type (st : AdapterState) (adminId : String)
    (messageTypes : List String) (taskErr : Bool)
    (present : String → Nat → Bool) : Except PyErr Unit :=
  match st.admins.lookup adminId with
  | none => .error .keyError
  | some h =>
    if h = .pyLive then
      if taskErr then .error (.mb .opFailed)
      else
        match confirmEach .etimedout present messageTypes with
        | .error e => .error (.mb e)
        | .ok _ => .ok ()
    else .error .attributeError

/-- add_concurrency (lines 269-308): admin lookup, create_partitions
task result checked by _task_status (OperationFailed on a task error),
then an E2BIG-bounded confirmation that the observed partition count
equals the requested count.  obs i is the partition count metadata
reports at attempt i. -/
def add_concurrency (st : AdapterState) (adminId mt : String)
    (concurrencyCount : Nat) (taskErr : Bool) (obs : Nat → Nat) :
    Except PyErr Unit :=
  match st.admins.lookup adminId with
  | none => .error .keyError
  | some h =>
    if h = .pyLive then
      if taskErr then .error (.mb .opFailed)
      else
        match confirmLoop .e2big maxListMessageTypeCount
            (fun i => decide (obs i ≠ concurrencyCount)) with
        | .error e => .error (.mb e)
        | .ok _ => .ok ()
    else .error .attributeError

/-- send (lines 316-346): producer dict lookup (raw KeyError when the
id is absent), the explicit None check raising ServiceNotInitialized,
then per-message produce whose delivery callback raises ETIMEDOUT on a
reported delivery failure. -/
def send (st : AdapterState) (producerId : String) (messages : List String)
    (deliveryErr : String → Bool) : Except PyErr Unit :=
  match st.producers.lookup producerId with
  | none => .error .keyError
  | some .pyNone => .error (.mb .serviceNotInit)
  | some .pyEmpty => .error .attributeError
  | some .pyLive =>
    if messages.any deliveryErr then .error (.mb .etimedout) else .ok ()

/-- One consumer.poll outcome: no data, a message carrying a broker
error, or a message payload. -/
inductive PollRes where
  | noData
  | errMsg
  | msg (v : String)
deriving DecidableEq, Repr

/-- receive lines 417-421: the effective poll timeout and blocking
flag.  None falls back to the configured default; a zero timeout (also
a zero default reached through the None branch) switches to blocking
mode with the default as the per-iteration interval. -/
def resolveTimeout (timeout : Option Rat) (dflt : Rat) : Rat × Bool :=
  let t := timeout.getD dflt
  if t = 0 then (dflt, true) else (t, false)

/-- receive lines 423-438: the poll loop.  In non-blocking mode a None
message returns None (the empty result); in blocking mode None
messages are skipped; a message carrying an error raises
OperationFailed; otherwise the payload is returned.  The outer Option
is none when the loop consumed the whole poll stream without
terminating (the blocking loop still waiting). -/
def receiveLoop (blocking : Bool) :
    List PollRes → Option (Except PyErr (Option String))
  | [] => none
  | .noData :: rest =>
    if blocking then receiveLoop blocking rest else some (.ok none)
  | .errMsg :: _ => some (.error (.mb .opFailed))
  | .msg v :: _ => some (.ok (some v))

/-- receive (lines 397-444): consumer dict lookup (raw KeyError when
the id is absent), the explicit None check raising
ServiceNotInitialized, timeout resolution, then the poll loop over the
stream of broker poll outcomes. -/
def receive (st : AdapterState) (consumerId : String) (timeout : Option Rat)
    (dflt : Rat) (polls : List PollRes) :
    Option (Except PyErr (Option String)) :=
  match st.consumers.lookup consumerId with
  | none => some (.error .keyError)
  | some .pyNone => some (.error (.mb .serviceNotInit))
  | some .pyEmpty => some (.error .attributeError)
  | some .pyLive => receiveLoop (resolveTimeout timeout dflt).2 polls

/-- ack (lines 446-454): consumer dict lookup (raw KeyError when the
id is absent), the explicit None check raising ServiceNotInitialized,
then a synchronous commit. -/
def ack (st : AdapterState) (consumerId : String) : Except PyErr Unit :=
  match st.consumers.lookup consumerId with
  | none => .error .keyError
  | some .pyNone => .error (.mb .serviceNotInit)
  | some .pyEmpty => .error .attributeError
  | some .pyLive => .ok ()


/-! ### Helper lemmas about the retry primitives -/

lemma range_maxConfig : List.range maxConfigRetryCount = [0, 1, 2] := rfl

lemma alterRetry_cases (errAt : Nat → Bool) :
    alterRetry errAt = .applied ∨ alterRetry errAt = .raised := by
  unfold alterRetry
  rw [range_maxConfig]
  cases h0 : errAt 0 <;> cases h1 : errAt 1 <;> cases h2 : errAt 2 <;>
    simp [alterRetryRun, h0, h1, h2]

lemma alterRetry_raised (errAt : Nat → Bool) (h : ∀ i, errAt i = true) :
    alterRetry errAt = .raised := by
  unfold alterRetry
  rw [range_maxConfig]
  simp [alterRetryRun, h 0, h 1, h 2]

lemma alterRetry_applied (errAt : Nat → Bool) (h : errAt 0 = false) :
    alterRetry errAt = .applied := by
  unfold alterRetry
  rw [range_maxConfig]
  simp [alterRetryRun, h]

lemma confirmFrom_all_fail (k : ErrKind) (maxC : Nat) (failsAt : Nat → Bool)
    (hall : ∀ i, failsAt i = true) :
    ∀ (l : List Nat) (sleeps : List Nat), (∃ i ∈ l, maxC < i) →
      confirmFrom k maxC failsAt l sleeps = .error k := by
  intro l
  induction l with
  | nil =>
    intro sleeps hex
    simp at hex
  | cons i rest ih =>
    intro sleeps hex
    by_cases hc : maxC < i
    · simp [confirmFrom, hall i, hc]
    · rcases hex with ⟨j, hj, hjc⟩
      have hjr : j ∈ rest := by
        rcases List.mem_cons.mp hj with rfl | hj'
        · exact absurd hjc hc
        · exact hj'
      simp only [confirmFrom, hall i, if_true, hc, if_false]
      exact ih _ ⟨j, hjr, hjc⟩

lemma confirmLoop_all_fail (k : ErrKind) (failsAt : Nat → Bool)
    (hall : ∀ i, failsAt i = true) :
    confirmLoop k maxListMessageTypeCount failsAt = .error k := by
  unfold confirmLoop
  exact confirmFrom_all_fail k _ failsAt hall _ _
    ⟨maxListMessageTypeCount + 1, by decide, by decide⟩

lemma confirmFrom_ok_cases (k : ErrKind) (maxC : Nat) (failsAt : Nat → Bool) :
    ∀ (l sleeps s : List Nat), confirmFrom k maxC failsAt l sleeps = .ok s →
      (∃ i ∈ l, failsAt i = false) ∨ (∀ i ∈ l, failsAt i = true ∧ i ≤ maxC) := by
  intro l
  induction l with
  | nil =>
    intro sleeps s _
    right
    simp
  | cons i rest ih =>
    intro sleeps s hok
    by_cases hfi : failsAt i = true
    · by_cases hc : maxC < i
      · simp [confirmFrom, hfi, hc] at hok
      · simp only [confirmFrom, hfi, if_true, hc, if_false] at hok
        rcases ih _ _ hok with h | h
        · rcases h with ⟨j, hj, hjf⟩
          exact Or.inl ⟨j, List.mem_cons_of_mem _ hj, hjf⟩
        · refine Or.inr (fun j hj => ?m)
          rcases List.mem_cons.mp hj with rfl | hj'
          · exact ⟨hfi, Nat.le_of_not_lt hc⟩
          · exact h j hj'
    · exact Or.inl ⟨i, List.mem_cons_self i rest,
        Bool.not_eq_true _ ▸ Bool.of_not_eq_true hfi⟩

lemma receiveLoop_blocking_out :
    ∀ (polls : List PollRes) (out : Except PyErr (Option String)),
      receiveLoop true polls = some out →
      (∃ v, out = .ok (some v)) ∨ out = .error (.mb .opFailed) := by
  intro polls
  induction polls with
  | nil =>
    intro out h
    simp [receiveLoop] at h
  | cons p rest ih =>
    intro out h
    cases p with
    | noData =>
      simp only [receiveLoop, if_true] at h
      exact ih out h
    | errMsg =>
      simp only [receiveLoop, Option.some_inj] at h
      exact Or.inr h.symm
    | msg v =>
      simp only [receiveLoop, Option.some_inj] at h
      exact Or.inl ⟨v, h.symm⟩


lemma computeSavedRetention_ne_min (fetched : Int) :
    computeSavedRetention fetched ≠ minMsgRetentionPeriod := by
  unfold computeSavedRetention
  split
  · decide
  · next h => exact h

lemma init_nonproducer_fields (st : AdapterState) (ct : ClientType)
    (conf : ClientConf) (env : InitEnv) (st' : AdapterState)
    (hct : ct ≠ .producer)
    (hok : init_client st ct conf env = .ok st') :
    st'.resource = st.resource ∧ st'.savedRetention = st.savedRetention := by
  cases ct with
  | producer => exact absurd rfl hct
  | admin =>
    unfold init_client clientsOf buildNew compatCheck compatTopics at hok
    iterate 5 (all_goals try split at hok)
    all_goals simp_all
    all_goals (subst hok; exact ⟨rfl, rfl⟩)
  | consumer =>
    unfold init_client clientsOf buildNew buildConsumer compatCheck
      compatTopics at hok
    iterate 5 (all_goals try split at hok)
    all_goals simp_all
    all_goals (subst hok; exact ⟨rfl, rfl⟩)

/-- Claim C9: at producer initialization with a fresh client id, the
stored baseline is computeSavedRetention of the fetched retention.ms
value: the default 604800000 ms when the fetched value equals the
minimal 1 ms, the fetched value otherwise; hence the baseline is never
the minimal purge value. -/
theorem spec_c9_baseline_never_min (st : AdapterState) (conf : ClientConf)
    (env : InitEnv) (st' : AdapterState)
    (hfresh : st.producers.lookup conf.client_id = none)
    (hok : init_client st .producer conf env = .ok st') :
    st'.savedRetention = some (computeSavedRetention env.fetched) ∧
    computeSavedRetention env.fetched ≠ minMsgRetentionPeriod ∧
    (env.fetched = minMsgRetentionPeriod →
      computeSavedRetention env.fetched = defaultMsgRetentionPeriod) := by
  refine ⟨?cap, computeSavedRetention_ne_min env.fetched, fun hm => ?clamp⟩
  case cap =>
    unfold init_client clientsOf at hok
    rw [hfresh] at hok
    unfold buildNew buildProducer at hok
    rcases hret : env.retPresent
    · rw [hret] at hok
      simp at hok
    · rw [hret] at hok
      simp only [if_true] at hok
      injection hok with hok
      rw [← hok]
  case clamp =>
    unfold computeSavedRetention
    rw [if_pos hm]

/-- Witness for spec_c9_baseline_never_min at a concrete fresh
producer initialization with fetched retention 1 ms. -/
theorem spec_c9_baseline_never_min_witness :
    (⟨[("p1", .pyLive)], [("p1", .pyLive)], [], some "A",
        some 604800000⟩ : AdapterState).savedRetention =
      some (computeSavedRetention 1) ∧
    computeSavedRetention 1 ≠ minMsgRetentionPeriod := by
  have h := spec_c9_baseline_never_min emptyState ⟨"p1", "A", [], []⟩
    ⟨[], true, 1⟩
    ⟨[("p1", .pyLive)], [("p1", .pyLive)], [], some "A", some 604800000⟩
    rfl rfl
  exact ⟨h.1, h.2.1⟩


lemma alterRetry_ne_fellThrough (errAt : Nat → Bool) :
    alterRetry errAt ≠ .fellThrough := by
  rcases alterRetry_cases errAt with h | h <;> simp [h]

/-- Claim C1: with a captured baseline in place, a delete (purge) call
that returns restores retention.ms to the stored baseline, which is
never the minimal purge value; if Phase B exhausts its retries after a
non-raising Phase A, the call raises ENOKEY, a kind distinct from
Phase A's OperationFailed. -/
theorem spec_c1_purge_restores_baseline (st : AdapterState)
    (adminId mt t : String) (env : DeleteEnv) (initRet fetched b : Int)
    (hadm : st.admins.lookup adminId = some .pyLive)
    (hres : st.resource = some t)
    (hsav : st.savedRetention = some b)
    (hb : b = computeSavedRetention fetched) :
    (∀ res, delete st adminId mt env initRet = .ok res →
        res.retention = b ∧ res.retention ≠ minMsgRetentionPeriod) ∧
    ((∀ i, env.phaseBErr i = true) → alterRetry env.phaseAErr ≠ .raised →
        delete st adminId mt env initRet = .error (.mb .enokey)) ∧
    ErrKind.enokey ≠ ErrKind.opFailed := by
  have hbne : b ≠ minMsgRetentionPeriod := hb ▸ computeSavedRetention_ne_min fetched
  refine ⟨fun res hok => ?okc, fun hallB hAne => ?bex, by decide⟩
  case okc =>
    rcases alterRetry_cases env.phaseAErr with hA | hA
    · rcases alterRetry_cases env.phaseBErr with hB | hB
      · simp [delete, hadm, hres, hsav, hA, hB] at hok
        subst hok
        exact ⟨rfl, hbne⟩
      · simp [delete, hadm, hres, hsav, hA, hB] at hok
    · simp [delete, hadm, hres, hsav, hA] at hok
  case bex =>
    have hA : alterRetry env.phaseAErr = .applied := by
      rcases alterRetry_cases env.phaseAErr with h | h
      · exact h
      · exact absurd h hAne
    have hB := alterRetry_raised env.phaseBErr hallB
    simp [delete, hadm, hres, hsav, hA, hB]

/-- Witness for spec_c1_purge_restores_baseline on a concrete state
and environments where Phase B succeeds, and where Phase B exhausts
its retries. -/
theorem spec_c1_purge_restores_baseline_witness :
    (∀ res, delete ⟨[("adm", .pyLive)], [("p", .pyLive)], [], some "A",
        some 604800000⟩ "adm" "A"
        ⟨fun _ => false, fun _ => false⟩ 3600000 = .ok res →
      res.retention = 604800000 ∧ res.retention ≠ minMsgRetentionPeriod) ∧
    ((∀ i, (fun _ : Nat => true) i = true) →
      alterRetry (fun _ => false) ≠ .raised →
      delete ⟨[("adm", .pyLive)], [("p", .pyLive)], [], some "A",
        some 604800000⟩ "adm" "A"
        ⟨fun _ => false, fun _ => true⟩ 3600000 = .error (.mb .enokey)) ∧
    ErrKind.enokey ≠ ErrKind.opFailed := by
  refine ⟨?h1, ?h2, by decide⟩
  case h1 =>
    exact (spec_c1_purge_restores_baseline
      ⟨[("adm", .pyLive)], [("p", .pyLive)], [], some "A", some 604800000⟩
      "adm" "A" "A" ⟨fun _ => false, fun _ => false⟩ 3600000 604800000
      604800000 rfl rfl rfl (by decide)).1
  case h2 =>
    intro h1 h2
    exact (spec_c1_purge_restores_baseline
      ⟨[("adm", .pyLive)], [("p", .pyLive)], [], some "A", some 604800000⟩
      "adm" "A" "A" ⟨fun _ => false, fun _ => true⟩ 3600000 604800000
      604800000 rfl rfl rfl (by decide)).2.1 h1 h2

/-- Claim C10: delete reads self._resource and self._saved_retention,
which only a producer initialization assigns; a delete call on an
adapter where no producer was ever initialized fails with a raw
attribute-lookup error, which is not a MessageBusError of any kind of
the adapter's taxonomy. -/
theorem spec_c10_delete_needs_producer (st : AdapterState)
    (adminId mt : String) (env : DeleteEnv) (initRet : Int)
    (hadm : st.admins.lookup adminId = some .pyLive)
    (hres : st.resource = none) :
    delete st adminId mt env initRet = .error .attributeError ∧
    (∀ k : ErrKind, (PyErr.attributeError : PyErr) ≠ .mb k) ∧
    (∀ (ct : ClientType) (conf : ClientConf) (ienv : InitEnv)
        (st' : AdapterState), ct ≠ .producer →
      init_client st ct conf ienv = .ok st' →
      st'.resource = st.resource ∧ st'.savedRetention = st.savedRetention) := by
  refine ⟨by simp [delete, hadm, hres], fun k h => PyErr.noConfusion h,
    fun ct conf ienv st' hct hok =>
      init_nonproducer_fields st ct conf ienv st' hct hok⟩

/-- Witness for spec_c10_delete_needs_producer: an adapter holding
only an admin handle. -/
theorem spec_c10_delete_needs_producer_witness :
    delete ⟨[("adm", .pyLive)], [], [], none, none⟩ "adm" "A"
      ⟨fun _ => false, fun _ => false⟩ 3600000 = .error .attributeError ∧
    (PyErr.attributeError : PyErr) ≠ .mb .serviceNotInit := by
  have h := spec_c10_delete_needs_producer
    ⟨[("adm", .pyLive)], [], [], none, none⟩ "adm" "A"
    ⟨fun _ => false, fun _ => false⟩ 3600000 rfl rfl
  exact ⟨h.1, h.2.1 .serviceNotInit⟩


/-- Claim C2, evaluated at its failing input: delete applies the
retention flip to the topic of the stored ConfigResource — the last
initialized producer's topic "A" — and not to the topic "B" named by
its message_type argument, which is used only in log and error text.
This contradicts delete's own docstring ("Deletes all the messages of
given message_type"). -/
theorem spec_c2_delete_ignores_name :
    delete ⟨[("adm", .pyLive)], [("p", .pyLive)], [], some "A",
        some 604800000⟩ "adm" "B" ⟨fun _ => false, fun _ => false⟩ 3600000 =
      .ok ⟨0, "A", 604800000⟩ ∧ "A" ≠ "B" := by
  exact ⟨rfl, by decide⟩

/-- Claim C3, counterexample: the baseline is not owned per handle.
Producer p1 (topic "A", fetched retention 100) is initialized first;
initializing producer p2 (topic "B", fetched retention 200) overwrites
the single adapter-level baseline, and a purge issued through p1's
admin handle for p1's topic restores 200, not the 100 captured at p1's
initialization. -/
theorem spec_c3_baseline_shared_cex :
    ((init_client emptyState .producer ⟨"p1", "A", [], []⟩
        ⟨[], true, 100⟩).bind (fun st1 =>
      init_client st1 .producer ⟨"p2", "B", [], []⟩ ⟨[], true, 200⟩)).bind
      (fun st2 => delete st2 "p1" "A" ⟨fun _ => false, fun _ => false⟩ 100)
      = .ok ⟨0, "B", 200⟩ ∧
    (init_client emptyState .producer ⟨"p1", "A", [], []⟩
        ⟨[], true, 100⟩).map AdapterState.savedRetention = .ok (some 100) ∧
    (200 : Int) ≠ 100 := by
  exact ⟨rfl, rfl, by decide⟩

/-- Claim C3 amended: the ConfigResource reference and the baseline
retention are single adapter-level fields shared by all producers.  A
repeated initialization of an existing live producer id is a no-op
that leaves them unchanged, while an initialization with a fresh id
overwrites both; delete restores the most recently captured
baseline. -/
theorem spec_c3_baseline_adapter_level (st : AdapterState)
    (conf : ClientConf) (env : InitEnv) :
    (st.producers.lookup conf.client_id = some .pyLive →
      conf.message_type ∈ env.metaTopics →
      init_client st .producer conf env = .ok st) ∧
    (st.producers.lookup conf.client_id = none → env.retPresent = true →
      ∃ st', init_client st .producer conf env = .ok st' ∧
        st'.savedRetention = some (computeSavedRetention env.fetched) ∧
        st'.resource = some conf.message_type) := by
  constructor
  · intro hl hmem
    simp [init_client, clientsOf, hl, compatCheck, compatTopics, hmem]
  · intro hl hret
    simp only [init_client, clientsOf, hl]
    unfold buildNew buildProducer
    rw [hret]
    exact ⟨_, rfl, rfl, rfl⟩

/-- Witness for spec_c3_baseline_adapter_level: a live producer handle
whose topic is still listed is a no-op, and a fresh producer captures
the baseline. -/
theorem spec_c3_baseline_adapter_level_witness :
    init_client ⟨[("p1", .pyLive)], [("p1", .pyLive)], [], some "A",
        some 100⟩ .producer ⟨"p1", "A", [], []⟩ ⟨["A"], true, 100⟩ =
      .ok ⟨[("p1", .pyLive)], [("p1", .pyLive)], [], some "A", some 100⟩ ∧
    ∃ st', init_client emptyState .producer ⟨"p2", "B", [], []⟩
        ⟨[], true, 200⟩ = .ok st' ∧
      st'.savedRetention = some (computeSavedRetention 200) ∧
      st'.resource = some "B" := by
  exact ⟨(spec_c3_baseline_adapter_level
      ⟨[("p1", .pyLive)], [("p1", .pyLive)], [], some "A", some 100⟩
      ⟨"p1", "A", [], []⟩ ⟨["A"], true, 100⟩).1 rfl (by decide),
    (spec_c3_baseline_adapter_level emptyState ⟨"p2", "B", [], []⟩
      ⟨[], true, 200⟩).2 rfl rfl⟩

/-- Claim C5, counterexample: a failing compatibility check on an
existing live producer handle raises EINVAL ("Unknown Topic or
Partition"), not the ENOENT kind the adapter uses for NotFound-style
"could not find" errors. -/
theorem spec_c5_compat_einval_cex :
    init_client ⟨[], [("p1", .pyLive)], [], none, none⟩ .producer
      ⟨"p1", "A", [], []⟩ ⟨[], true, 0⟩ = .error (.mb .einval) ∧
    ErrKind.einval ≠ ErrKind.enoent := by
  exact ⟨rfl, by decide⟩

/-- Claim C5 amended: for an existing live handle init_client performs
the compatibility check instead of recreating — the producer path
requires the requested message_type in broker metadata, the consumer
path requires at least one of the requested message_types — and a
violation raises EINVAL (InvalidArgument, "Unknown Topic or
Partition"), not an ENOENT/NotFound kind; when the check passes the
call returns with the state unchanged, opening no second
connection. -/
theorem spec_c5_compat_check_amended (st : AdapterState) (conf : ClientConf)
    (env : InitEnv) :
    (st.producers.lookup conf.client_id = some .pyLive →
      ((conf.message_type ∈ env.metaTopics →
          init_client st .producer conf env = .ok st) ∧
        (conf.message_type ∉ env.metaTopics →
          init_client st .producer conf env = .error (.mb .einval)))) ∧
    (st.consumers.lookup conf.client_id = some .pyLive →
      (((∃ t ∈ conf.message_types, t ∈ env.metaTopics) →
          init_client st .consumer conf env = .ok st) ∧
        ((∀ t ∈ conf.message_types, t ∉ env.metaTopics) →
          init_client st .consumer conf env = .error (.mb .einval)))) := by
  constructor
  · intro hl
    constructor <;> intro hmem <;>
      simp [init_client, clientsOf, hl, compatCheck, compatTopics, hmem]
  · intro hl
    constructor <;> intro hmem
    · simp [init_client, clientsOf, hl, compatCheck, compatTopics, hmem]
    · have hne : ¬∃ t ∈ conf.message_types, t ∈ env.metaTopics := by
        push_neg
        exact hmem
      simp [init_client, clientsOf, hl, compatCheck, compatTopics, hne]

/-- Witness for spec_c5_compat_check_amended: a live producer handle
with its topic listed in metadata is a no-op, and one with no topics
in metadata raises EINVAL. -/
theorem spec_c5_compat_check_amended_witness :
    init_client ⟨[], [("p1", .pyLive)], [], none, none⟩ .producer
      ⟨"p1", "A", [], []⟩ ⟨["A"], true, 0⟩ =
      .ok ⟨[], [("p1", .pyLive)], [], none, none⟩ ∧
    init_client ⟨[], [], [("c1", .pyLive)], none, none⟩ .consumer
      ⟨"c1", "", ["A"], []⟩ ⟨[], true, 0⟩ = .error (.mb .einval) := by
  exact ⟨((spec_c5_compat_check_amended
      ⟨[], [("p1", .pyLive)], [], none, none⟩
      ⟨"p1", "A", [], []⟩ ⟨["A"], true, 0⟩).1 rfl).1 (by decide),
    ((spec_c5_compat_check_amended ⟨[], [], [("c1", .pyLive)], none, none⟩
      ⟨"c1", "", ["A"], []⟩ ⟨[], true, 0⟩).2 rfl).2 (by decide)⟩

/-- Claim C7, counterexample: send and ack with a client id that was
never initialized fail with a raw KeyError from the registry dict
lookup, not with the adapter's ServiceNotInitialized kind — the
explicit None check on the handle is only reached when a None value
was stored under the id. -/
theorem spec_c7_uninit_keyerror_cex :
    send emptyState "p1" ["m"] (fun _ => false) = .error .keyError ∧
    ack emptyState "c1" = .error .keyError ∧
    (PyErr.keyError : PyErr) ≠ .mb .serviceNotInit := by
  exact ⟨rfl, rfl, by decide⟩

/-- Claim C7 amended: send, ack and receive raise the adapter's
ServiceNotInitialized kind only when the registry holds a stored None
under the id; an id with no registry entry at all fails with a raw
KeyError outside the adapter's taxonomy. -/
theorem spec_c7_uninit_amended (st : AdapterState) (pid cid : String)
    (messages : List String) (deliveryErr : String → Bool)
    (timeout : Option Rat) (dflt : Rat) (polls : List PollRes) :
    (st.producers.lookup pid = none →
      send st pid messages deliveryErr = .error .keyError) ∧
    (st.producers.lookup pid = some .pyNone →
      send st pid messages deliveryErr = .error (.mb .serviceNotInit)) ∧
    (st.consumers.lookup cid = none →
      ack st cid = .error .keyError ∧
      receive st cid timeout dflt polls = some (.error .keyError)) ∧
    (st.consumers.lookup cid = some .pyNone →
      ack st cid = .error (.mb .serviceNotInit) ∧
      receive st cid timeout dflt polls =
        some (.error (.mb .serviceNotInit))) := by
  refine ⟨fun h => by simp [send, h], fun h => by simp [send, h],
    fun h => ⟨by simp [ack, h], by simp [receive, h]⟩,
    fun h => ⟨by simp [ack, h], by simp [receive, h]⟩⟩

/-- Witness for spec_c7_uninit_amended: an empty registry gives
KeyError; a stored None gives ServiceNotInitialized. -/
theorem spec_c7_uninit_amended_witness :
    send emptyState "p1" [] (fun _ => false) = .error .keyError ∧
    send ⟨[], [("p1", .pyNone)], [], none, none⟩ "p1" [] (fun _ => false) =
      .error (.mb .serviceNotInit) := by
  exact ⟨(spec_c7_uninit_amended emptyState "p1" "c1" [] (fun _ => false)
      none 1 []).1 rfl,
    (spec_c7_uninit_amended ⟨[], [("p1", .pyNone)], [], none, none⟩ "p1"
      "c1" [] (fun _ => false) none 1 []).2.1 rfl⟩


/-- Claim C4, counterexample: the alter-config retry of delete's
Phase A is a confirmation loop in the claim's enumeration, yet on
exhaustion it raises OperationFailed — not a Timeout-kind error — and
it performs no sleep between its (at most three) attempts. -/
theorem spec_c4_loops_cex :
    delete ⟨[("adm", .pyLive)], [], [], some "A", some 604800000⟩ "adm" "A"
      ⟨fun _ => true, fun _ => false⟩ 3600000 = .error (.mb .opFailed) ∧
    ErrKind.opFailed ≠ ErrKind.etimedout := by
  exact ⟨rfl, by decide⟩

/-- Claim C4 amended: the topic-created, topic-deleted and
partition-count confirmations share one primitive - poll immediately,
sleep attempt-index seconds (1, 2, 3, ...) between failed attempts,
raise after the 16th failed attempt - but the raised kind is ETIMEDOUT
for create and delete and E2BIG for partition count; the alter-config
retries of purge use a different primitive with at most three attempts
and no sleep, raising OperationFailed (Phase A) or ENOKEY (Phase B) on
the third consecutive error. -/
theorem spec_c4_loops_amended (k : ErrKind) (failsAt : Nat → Bool)
    (st : AdapterState) (adminId mt : String) (count : Nat)
    (obs : Nat → Nat) (present : String → Nat → Bool) (env : DeleteEnv)
    (initRet b : Int)
    (hadm : st.admins.lookup adminId = some .pyLive)
    (hres : st.resource = some mt)
    (hsav : st.savedRetention = some b) :
    ((∀ i, failsAt i = true) →
      confirmLoop k maxListMessageTypeCount failsAt = .error k) ∧
    (confirmLoop k maxListMessageTypeCount (fun i => decide (i ≤ 3)) =
      .ok [1, 2, 3]) ∧
    ((∀ i, present mt i = false) →
      register_message_type st adminId [mt] false present =
        .error (.mb .etimedout)) ∧
    ((∀ i, present mt i = true) →
      deregister_message_type st adminId [mt] false present =
        .error (.mb .etimedout)) ∧
    ((∀ i, obs i ≠ count) →
      add_concurrency st adminId mt count false obs = .error (.mb .e2big)) ∧
    ((∀ i, env.phaseAErr i = true) →
      delete st adminId mt env initRet = .error (.mb .opFailed)) ∧
    ((∀ i, env.phaseAErr i = false) → (∀ i, env.phaseBErr i = true) →
      delete st adminId mt env initRet = .error (.mb .enokey)) := by
  refine ⟨fun h => confirmLoop_all_fail k failsAt h, rfl,
    fun h => ?reg, fun h => ?dereg, fun h => ?conc, fun h => ?phA,
    fun h1 h2 => ?phB⟩
  case reg =>
    have hcl := confirmLoop_all_fail .etimedout (fun i => ! present mt i)
      (fun i => by simp [h i])
    simp [register_message_type, hadm, confirmEach, hcl]
  case dereg =>
    have hcl := confirmLoop_all_fail .etimedout (present mt) h
    simp [deregister_message_type, hadm, confirmEach, hcl]
  case conc =>
    have hcl := confirmLoop_all_fail .e2big
      (fun i => ! decide (obs i = count)) (fun i => by simp [h i])
    simp [add_concurrency, hadm, hcl]
  case phA =>
    have hA := alterRetry_raised env.phaseAErr h
    simp [delete, hadm, hres, hA]
  case phB =>
    have hA := alterRetry_applied env.phaseAErr (h1 0)
    have hB := alterRetry_raised env.phaseBErr h2
    simp [delete, hadm, hres, hsav, hA, hB]

/-- Witness for spec_c4_loops_amended: a topic that never appears in
metadata raises ETIMEDOUT from register_message_type, and the backoff
schedule for three failed attempts is 1 s, 2 s, 3 s. -/
theorem spec_c4_loops_amended_witness :
    register_message_type ⟨[("adm", .pyLive)], [], [], some "A", some 5⟩
      "adm" ["A"] false (fun _ _ => false) = .error (.mb .etimedout) ∧
    confirmLoop .etimedout maxListMessageTypeCount (fun i => decide (i ≤ 3)) =
      .ok [1, 2, 3] := by
  have h := spec_c4_loops_amended .etimedout (fun _ => true)
    ⟨[("adm", .pyLive)], [], [], some "A", some 5⟩ "adm" "A" 2 (fun _ => 3)
    (fun _ _ => false) ⟨fun _ => true, fun _ => true⟩ 7 5 rfl rfl rfl
  exact ⟨h.2.2.1 (fun i => rfl), h.2.1⟩

/-- Claim C8, counterexample: a request whose partition count is never
reached (here 2 requested while metadata keeps reporting 3) raises
E2BIG on exhaustion, which is neither OperationFailed nor the
adapter's Timeout kind ETIMEDOUT. -/
theorem spec_c8_concurrency_e2big_cex :
    add_concurrency ⟨[("adm", .pyLive)], [], [], none, none⟩ "adm" "A" 2
      false (fun _ => 3) = .error (.mb .e2big) ∧
    ErrKind.e2big ≠ ErrKind.opFailed ∧
    ErrKind.e2big ≠ ErrKind.etimedout := by
  exact ⟨rfl, by decide, by decide⟩

/-- Claim C8 amended: a broker-rejected partition request (error task
result) raises OperationFailed; a request whose observed partition
count never equals the requested count raises the E2BIG
retry-exhaustion error (not a Timeout-kind error); a call that
succeeds did observe a metadata partition count equal to the requested
count.  Under the broker's own guarantee that partitions never
decrease, a request with count at most the current partition count
therefore never succeeds silently. -/
theorem spec_c8_concurrency_amended (st : AdapterState) (adminId mt : String)
    (count : Nat) (taskErr : Bool) (obs : Nat → Nat)
    (hadm : st.admins.lookup adminId = some .pyLive) :
    (taskErr = true →
      add_concurrency st adminId mt count taskErr obs =
        .error (.mb .opFailed)) ∧
    ((taskErr = false ∧ ∀ i, obs i ≠ count) →
      add_concurrency st adminId mt count taskErr obs =
        .error (.mb .e2big)) ∧
    (∀ u, add_concurrency st adminId mt count taskErr obs = .ok u →
      ∃ i, obs i = count) := by
  refine ⟨fun h => by simp [add_concurrency, hadm, h], fun h => ?ex,
    fun u hok => ?sound⟩
  case ex =>
    have hcl := confirmLoop_all_fail .e2big
      (fun i => ! decide (obs i = count)) (fun i => by simp [h.2 i])
    simp [add_concurrency, hadm, h.1, hcl]
  case sound =>
    cases taskErr with
    | true => simp [add_concurrency, hadm] at hok
    | false =>
      rcases hcl : confirmLoop .e2big maxListMessageTypeCount
          (fun i => ! decide (obs i = count)) with e | s
      · simp [add_concurrency, hadm, hcl] at hok
      · rcases confirmFrom_ok_cases .e2big maxListMessageTypeCount
            (fun i => ! decide (obs i = count))
            (List.range' 1 (maxListMessageTypeCount + 1)) [] s
            (by simpa [confirmLoop] using hcl) with ⟨i, _, hif⟩ | hall
        · refine ⟨i, of_decide_eq_true ?dec⟩
          simpa using hif
        · exact absurd (hall (maxListMessageTypeCount + 1) (by decide)).2
            (by decide)

/-- Witness for spec_c8_concurrency_amended: a rejected task raises
OperationFailed, and an unreached count raises E2BIG. -/
theorem spec_c8_concurrency_amended_witness :
    add_concurrency ⟨[("adm", .pyLive)], [], [], none, none⟩ "adm" "A" 5
      true (fun _ => 3) = .error (.mb .opFailed) ∧
    add_concurrency ⟨[("adm", .pyLive)], [], [], none, none⟩ "adm" "A" 2
      false (fun _ => 3) = .error (.mb .e2big) := by
  exact ⟨(spec_c8_concurrency_amended
      ⟨[("adm", .pyLive)], [], [], none, none⟩ "adm" "A" 5 true
      (fun _ => 3) rfl).1 rfl,
    (spec_c8_concurrency_amended ⟨[("adm", .pyLive)], [], [], none, none⟩
      "adm" "A" 2 false (fun _ => 3) rfl).2.1 ⟨rfl, fun i => by decide⟩⟩


/-- Claim C6: a timeout of None resolves to the configured default
with a single bounded poll (returning the distinct empty result when
the first poll has no data); a timeout of 0 resolves to blocking mode
with the default as the per-iteration interval and never returns the
empty result — every terminating outcome is a payload or a raised
OperationFailed; any positive timeout performs a single poll bounded
by it and returns the distinct empty result on no data.  The
configured default is assumed nonzero: the two sequential resolution
steps of lines 417-421 would otherwise turn a None timeout into
blocking mode as well. -/
theorem spec_c6_receive_timeouts (st : AdapterState) (cid : String)
    (dflt : Rat) (polls : List PollRes)
    (hlive : st.consumers.lookup cid = some .pyLive)
    (hd : dflt ≠ 0) :
    (resolveTimeout none dflt = (dflt, false)) ∧
    (resolveTimeout (some 0) dflt = (dflt, true)) ∧
    (∀ q : Rat, 0 < q → resolveTimeout (some q) dflt = (q, false)) ∧
    (receive st cid (some 0) dflt polls ≠ some (.ok none)) ∧
    (∀ out, receive st cid (some 0) dflt polls = some out →
      (∃ v, out = .ok (some v)) ∨ out = .error (.mb .opFailed)) ∧
    (∀ rest, receive st cid none dflt (.noData :: rest) = some (.ok none)) ∧
    (∀ p rest, receive st cid none dflt (p :: rest) =
      receive st cid none dflt [p]) ∧
    (∀ q : Rat, 0 < q → ∀ rest,
      receive st cid (some q) dflt (.noData :: rest) = some (.ok none)) ∧
    (∀ q : Rat, 0 < q → ∀ p rest, receive st cid (some q) dflt (p :: rest) =
      receive st cid (some q) dflt [p]) := by
  have hblock : receive st cid (some 0) dflt polls = receiveLoop true polls := by
    simp [receive, hlive, resolveTimeout]
  refine ⟨by simp [resolveTimeout, hd], by simp [resolveTimeout],
    fun q hq => by simp [resolveTimeout, hq.ne'], ?ne, ?outc, ?none1,
    ?nonesingle, ?pos1, ?possingle⟩
  case ne =>
    rw [hblock]
    intro hcontra
    rcases receiveLoop_blocking_out polls _ hcontra with ⟨v, hv⟩ | hv <;>
      simp at hv
  case outc =>
    rw [hblock]
    exact fun out => receiveLoop_blocking_out polls out
  case none1 =>
    intro rest
    simp [receive, hlive, resolveTimeout, hd, receiveLoop]
  case nonesingle =>
    intro p rest
    cases p <;> simp [receive, hlive, resolveTimeout, hd, receiveLoop]
  case pos1 =>
    intro q hq rest
    simp [receive, hlive, resolveTimeout, hq.ne', receiveLoop]
  case possingle =>
    intro q hq p rest
    cases p <;> simp [receive, hlive, resolveTimeout, hq.ne', receiveLoop]

/-- Witness for spec_c6_receive_timeouts at a concrete consumer state,
default timeout 2 and a poll stream starting with no data. -/
theorem spec_c6_receive_timeouts_witness :
    resolveTimeout none 2 = (2, false) ∧
    resolveTimeout (some 0) 2 = (2, true) ∧
    receive ⟨[], [], [("c1", .pyLive)], none, none⟩ "c1" (some 0) 2
      [.noData, .msg "m"] ≠ some (.ok none) ∧
    receive ⟨[], [], [("c1", .pyLive)], none, none⟩ "c1" (some 1) 2
      [.noData, .msg "m"] = some (.ok none) := by
  have h := spec_c6_receive_timeouts ⟨[], [], [("c1", .pyLive)], none, none⟩
    "c1" 2 [.noData, .msg "m"] rfl (by norm_num)
  exact ⟨h.1, h.2.1, h.2.2.2.1,
    h.2.2.2.2.2.2.2.1 1 (by norm_num) [.msg "m"]⟩

end KafkaMessageBroker
